import Mathlib

/-!
Shallow embedding of the crux transcript retrieval workflow.

Source files embedded here:
* src/src/lib/transcript.ts — getTranscript: cache lookup, remote fetch,
  response normalization, cache population.
* src/unnamed/part_000 — WatchPage: dispatch on the request parameter and
  the resolver result, and per-entry time-label rendering.

The JavaScript environment (KV binding, env vars, fetch) is modelled as an
explicit Env record describing what each external call would do on this
invocation; getTranscript becomes a pure function from Env (and the video
id) to a RunResult recording the returned value, the number of outbound
HTTP call attempts, the kv.put calls issued (value and expirationTtl
argument), and the outcome of the kv.get call if one was performed.
-/

set_option autoImplicit false

namespace Crux

/-- One transcript entry, from the TranscriptEntry interface: a millisecond
offset from video start and the caption text. Offsets are modelled as
nonnegative integers (milliseconds). -/
structure TranscriptEntry where
  offset : Nat
  text : String
deriving DecidableEq, Repr

/-- Parsed body of a Supadata JSON response (SupadataTranscriptResponse):
an optional transcript field and an optional error field. -/
structure SupadataTranscriptResponse where
  transcript : Option (List TranscriptEntry)
  error : Option String
deriving DecidableEq, Repr

/-- An HTTP response as getTranscript observes it: the status code, the
content-type header (none when the header is absent), and the result of
parsing the body as JSON (none when response.json() would throw). The body
is taken as fully materialized; a transport failure while obtaining it is
the networkError case of FetchOutcome. -/
structure HttpResponse where
  status : Nat
  contentType : Option String
  json : Option SupadataTranscriptResponse
deriving DecidableEq, Repr

/-- What the single fetch to the Supadata endpoint would do: throw a
network-level exception, or yield a response. -/
inductive FetchOutcome where
  | networkError
  | response (r : HttpResponse)
deriving DecidableEq, Repr

/-- What kv.get(videoId) would do: return a cached value (possibly the
empty list), return null (absent), or throw. -/
inductive CacheReadResult where
  | value (v : List TranscriptEntry)
  | absent
  | throws
deriving DecidableEq, Repr

/-- The external state of one getTranscript invocation: whether the
TRANSCRIPT_CACHE binding resolved to a kv namespace, what the cache read
would report, whether kv.put would throw, the SUPADATA_API_KEY variable
(none when unset), and what the fetch would do. -/
structure Env where
  kvAvailable : Bool
  cacheRead : CacheReadResult
  putThrows : Bool
  apiKey : Option String
  fetchOutcome : FetchOutcome
deriving DecidableEq, Repr

/-- JavaScript falsiness of an optional string: undefined and the empty
string are falsy. This is the `!apiKey` test. -/
def jsFalsyStr : Option String → Bool
  | none => true
  | some s => s.isEmpty

/-- JavaScript truthiness of an optional string: present and non-empty.
This is the `if (data.error)` test. -/
def jsTruthyStr : Option String → Bool
  | none => false
  | some s => !s.isEmpty

/-- Whether the list of characters pat occurs as a prefix of s. -/
def charsStartWith : List Char → List Char → Bool
  | [], _ => true
  | _ :: _, [] => false
  | p :: ps, c :: cs => p = c && charsStartWith ps cs

/-- Whether pat occurs contiguously anywhere in s. -/
def charsContain (pat : List Char) : List Char → Bool
  | [] => charsStartWith pat []
  | c :: cs => charsStartWith pat (c :: cs) || charsContain pat cs

/-- JavaScript String.prototype.includes: substring containment. This is
the content-type test contentType.includes("application/json"). -/
def strIncludes (s pat : String) : Bool :=
  charsContain pat.toList s.toList

/-- The Fetch API response.ok flag: status in the inclusive range 200-299. -/
def respOk (status : Nat) : Bool :=
  200 ≤ status && status ≤ 299

/-- The kv.put calls issued by the branches that cache the confirmed-absent
state: one put of the empty list with expirationTtl 3600 when the kv
binding is available, nothing otherwise. -/
def emptyWrite (kvAvailable : Bool) : List (List TranscriptEntry × Option Nat) :=
  if kvAvailable then [([], some 3600)] else []

/-- Result of the fetch-and-normalize phase of getTranscript (everything
inside the try block once the cache has missed): the value returned to the
caller (none is the null failure marker) and the kv.put calls issued, each
as (value, expirationTtl argument). Mirrors lines 83-185 of transcript.ts:
a thrown fetch or a thrown response.json() is caught and yields null; a
non-ok 404 caches [] with ttl 3600 and returns []; any other non-ok status
returns null; an ok response is parsed only when a content-type header is
present and contains "application/json"; a truthy error field yields null;
a missing or empty transcript field caches [] with ttl 3600 and returns [];
otherwise the transcript is cached with no ttl and returned. -/
def fetchPhase (kvAvailable : Bool) :
    FetchOutcome → Option (List TranscriptEntry) × List (List TranscriptEntry × Option Nat)
  | .networkError => (none, [])
  | .response r =>
    if respOk r.status then
      match r.contentType with
      | none => (none, [])
      | some ct =>
        if strIncludes ct "application/json" then
          match r.json with
          | none => (none, [])
          | some data =>
            if jsTruthyStr data.error then (none, [])
            else
              match data.transcript with
              | none => (some [], emptyWrite kvAvailable)
              | some t =>
                if t.isEmpty then (some [], emptyWrite kvAvailable)
                else (some t, if kvAvailable then [(t, none)] else [])
        else (none, [])
    else if r.status = 404 then (some [], emptyWrite kvAvailable)
    else (none, [])

/-- The value kv.get(videoId) returned when the kv binding is available and
the read neither returned null nor threw; none in every other case. A hit
(some v, including v = []) short-circuits the remote fetch. -/
def cacheHit (env : Env) : Option (List TranscriptEntry) :=
  if env.kvAvailable then
    match env.cacheRead with
    | .value v => some v
    | .absent => none
    | .throws => none
  else none

/-- Observable outcome of one getTranscript invocation: the returned value
(none is the null failure marker), how many outbound HTTP calls were
attempted, the kv.put calls issued for the video id (value and
expirationTtl argument; whether such a call then throws is Env.putThrows
and never influences anything else), and the outcome of the kv.get call
when one was performed. -/
structure RunResult where
  result : Option (List TranscriptEntry)
  httpCalls : Nat
  cacheWrites : List (List TranscriptEntry × Option Nat)
  cacheRead : Option CacheReadResult
deriving DecidableEq, Repr

/-- Shallow embedding of getTranscript (transcript.ts lines 50-186).
The api key is tested first: a falsy SUPADATA_API_KEY returns null before
any cache or network activity. Then, when the kv binding is available, the
cache is read; a non-null value is returned at once with no fetch; a null
or a thrown read falls through to exactly one fetch attempt, handled by
fetchPhase. putThrows is irrelevant throughout because every kv.put sits
in a try/catch that only logs. -/
def getTranscript (env : Env) (videoId : String) : RunResult :=
  if jsFalsyStr env.apiKey then
    ⟨none, 0, [], none⟩
  else
    let observed : Option CacheReadResult :=
      if env.kvAvailable then some env.cacheRead else none
    match cacheHit env with
    | some v => ⟨some v, 0, [], observed⟩
    | none =>
      let p := fetchPhase env.kvAvailable env.fetchOutcome
      ⟨p.1, 1, p.2, observed⟩

/-- The env with its putThrows field replaced; getTranscript never reads
this field, which is the formal shape of "all cache write failures are
swallowed". -/
def setPutThrows (e : Env) (b : Bool) : Env :=
  ⟨e.kvAvailable, e.cacheRead, b, e.apiKey, e.fetchOutcome⟩

/-- The env with its cacheRead field replaced, used to compare a throwing
read with a plain miss. -/
def setCacheRead (e : Env) (c : CacheReadResult) : Env :=
  ⟨e.kvAvailable, c, e.putThrows, e.apiKey, e.fetchOutcome⟩

/-- The searchParams.v value of the watch page: a Next.js query
parameter is undefined, a string, or an array of strings. -/
inductive QueryValue where
  | missing
  | str (s : String)
  | strList (l : List String)
deriving DecidableEq, Repr

/-- A natural number rendered with at least two digits, as the minute and
second fields of Date.prototype.toISOString are. -/
def pad2 (n : Nat) : String :=
  if n < 10 then "0" ++ toString n else toString n

/-- Shallow embedding of new Date(entry.offset).toISOString().substr(14, 5)
for a nonnegative integer millisecond offset: characters 14-18 of the ISO
string are the minute-of-hour and second-of-minute fields, so the label is
the offset's minutes modulo 60 and seconds modulo 60, each two digits,
separated by a colon. -/
def formatOffset (offset : Nat) : String :=
  pad2 (offset / 60000 % 60) ++ ":" ++ pad2 (offset / 1000 % 60)

/-- What the watch page renders, abstracted to the data each branch
interpolates into its markup: the missing-id page; the generic error page
naming the video id; the no-transcript page naming the video id; or the
transcript page naming the video id and listing, in order, each entry's
formatted time label and text. -/
inductive RenderedPage where
  | missingId
  | fetchError (videoId : String)
  | noTranscript (videoId : String)
  | transcript (videoId : String) (rows : List (String × String))
deriving DecidableEq, Repr

/-- Shallow embedding of WatchPage (part_000 lines 29-84): a value of the v
parameter that is not a string, or is the empty string, renders the
missing-id page with no resolver call; otherwise getTranscript is called
once and null renders the error page, an empty list the no-transcript
page, and a non-empty list the transcript page with one
(formatOffset entry.offset, entry.text) row per entry in order. The second
component counts getTranscript calls. -/
def WatchPage (v : QueryValue) (env : Env) : RenderedPage × Nat :=
  match v with
  | .missing => (.missingId, 0)
  | .strList _ => (.missingId, 0)
  | .str s =>
    if s.isEmpty then (.missingId, 0)
    else
      match (getTranscript env s).result with
      | none => (.fetchError s, 1)
      | some [] => (.noTranscript s, 1)
      | some ts => (.transcript s (ts.map fun e => (formatOffset e.offset, e.text)), 1)

/-- Env for the C1 counterexample: the cache holds a one-entry transcript
but SUPADATA_API_KEY is unset. -/
def envCachedNoKey : Env :=
  ⟨true, .value [⟨0, "Hello"⟩], false, none, .networkError⟩

/-- Env with a cached one-entry transcript and a configured key. -/
def envCachedHit : Env :=
  ⟨true, .value [⟨0, "Hello"⟩], false, some "k", .networkError⟩

/-- Env with a configured key, a cache miss, and a 404 response. -/
def env404 : Env :=
  ⟨true, .absent, false, some "k", .response ⟨404, some "text/plain", none⟩⟩

/-- Env for the C4 counterexample: ok JSON response whose body carries an
explicit but empty error field next to a non-empty transcript. -/
def envEmptyError : Env :=
  ⟨true, .absent, false, some "k",
    .response ⟨200, some "application/json",
      some ⟨some [⟨0, "x"⟩], some ""⟩⟩⟩

/-- Env with a configured key, a cache miss, and an ok JSON response with a
non-JSON content type. -/
def envHtml : Env :=
  ⟨true, .absent, false, some "k", .response ⟨200, some "text/html", some ⟨some [⟨0, "x"⟩], none⟩⟩⟩

/-- Env with a configured key, a cache miss, a parameterized JSON content
type, a clean body with one entry, and a throwing kv.put. -/
def envGood : Env :=
  ⟨true, .absent, true, some "k",
    .response ⟨200, some "application/json; charset=utf-8",
      some ⟨some [⟨61000, "Hello"⟩], none⟩⟩⟩

/-- Env with a configured key, a cache read that throws, and an ok JSON
response with no content-type header. -/
def envNoCt : Env :=
  ⟨true, .throws, false, some "k", .response ⟨200, none, some ⟨some [⟨0, "x"⟩], none⟩⟩⟩

/-- C1 — counterexample. As stated the claim requires a cache hit to be
returned regardless of any other environment state, but getTranscript
tests SUPADATA_API_KEY before touching the cache: with the cache holding a
one-entry transcript and the key unset, the invocation returns the null
failure marker, not the cached value. -/
theorem c1_counterexample :
    cacheHit envCachedNoKey = some [⟨0, "Hello"⟩] ∧
    (getTranscript envCachedNoKey "vid").result = none := by
  constructor <;> rfl

/-- C1 — amended: for every video identifier for which the cache store
holds a value (including an empty sequence), provided the API credential
is configured (set and non-empty), getTranscript returns that cached value,
makes no outbound HTTP call and issues no cache write, regardless of any
other environment state. -/
theorem c1_cache_hit_short_circuits (env : Env) (vid : String) (v : List TranscriptEntry)
    (hkey : jsFalsyStr env.apiKey = false)
    (hkv : env.kvAvailable = true) (hread : env.cacheRead = .value v) :
    (getTranscript env vid).result = some v ∧
    (getTranscript env vid).httpCalls = 0 ∧
    (getTranscript env vid).cacheWrites = [] := by
  simp [getTranscript, cacheHit, hkey, hkv, hread]

/-- C1 — witness: a concrete cache hit with a configured key. -/
theorem c1_cache_hit_short_circuits_witness :
    (getTranscript envCachedHit "vid").result = some [⟨0, "Hello"⟩] ∧
    (getTranscript envCachedHit "vid").httpCalls = 0 ∧
    (getTranscript envCachedHit "vid").cacheWrites = [] :=
  c1_cache_hit_short_circuits envCachedHit "vid" [⟨0, "Hello"⟩] rfl rfl rfl

/-- C2 — for every video identifier, when SUPADATA_API_KEY is not
configured getTranscript returns the null failure marker, attempts zero
outbound HTTP calls, issues no cache write, and never reaches the cache
read. -/
theorem c2_missing_key_fails_before_network (env : Env) (vid : String)
    (h : env.apiKey = none) :
    getTranscript env vid = ⟨none, 0, [], none⟩ := by
  simp [getTranscript, jsFalsyStr, h]

/-- C2 — witness at a concrete environment with the key unset. -/
theorem c2_missing_key_fails_before_network_witness :
    getTranscript envCachedNoKey "vid" = ⟨none, 0, [], none⟩ :=
  c2_missing_key_fails_before_network envCachedNoKey "vid" rfl

/-- C3 — on a cache miss (the read returned null or threw, with the kv
binding available), a 404 response, or an ok JSON response with no truthy
error whose transcript field is absent or the empty list, makes
getTranscript return the empty list and issue exactly one kv.put of the
empty list with expirationTtl 3600. -/
theorem c3_confirmed_absent_cached (env : Env) (vid : String) (r : HttpResponse)
    (hkey : jsFalsyStr env.apiKey = false)
    (hkv : env.kvAvailable = true)
    (hmiss : env.cacheRead = .absent ∨ env.cacheRead = .throws)
    (hresp : env.fetchOutcome = .response r)
    (hcase : r.status = 404 ∨
      (respOk r.status = true ∧
       (∃ ct, r.contentType = some ct ∧ strIncludes ct "application/json" = true) ∧
       ∃ data, r.json = some data ∧ jsTruthyStr data.error = false ∧
         (data.transcript = none ∨ data.transcript = some []))) :
    (getTranscript env vid).result = some [] ∧
    (getTranscript env vid).cacheWrites = [([], some 3600)] := by
  have hmiss2 : cacheHit env = none := by
    rcases hmiss with h | h <;> simp [cacheHit, hkv, h]
  rcases hcase with h404 | ⟨hok, ⟨ct, hct, hinc⟩, data, hjson, herr, ht⟩
  · have h404f : respOk 404 = false := by decide
    simp [getTranscript, hkey, hmiss2, hresp, fetchPhase, h404, h404f, emptyWrite, hkv]
  · rcases ht with ht | ht <;>
      simp [getTranscript, hkey, hmiss2, hresp, fetchPhase, hok, hct, hinc, hjson, herr, ht,
        emptyWrite, hkv]

/-- C3 — witness: a concrete 404 on a cache miss. -/
theorem c3_confirmed_absent_cached_witness :
    (getTranscript env404 "missing1").result = some [] ∧
    (getTranscript env404 "missing1").cacheWrites = [([], some 3600)] :=
  c3_confirmed_absent_cached env404 "missing1" ⟨404, some "text/plain", none⟩
    rfl rfl (Or.inl rfl) rfl (Or.inl rfl)

/-- C4 — counterexample. As stated the claim makes any success JSON body
containing an explicit error field fail with no cache write, but the code
tests the field with JavaScript truthiness: a body carrying the explicit
field error = "" next to a non-empty transcript is treated as error-free,
so getTranscript returns the transcript and issues a cache write. -/
theorem c4_counterexample :
    envEmptyError.fetchOutcome = .response ⟨200, some "application/json",
      some ⟨some [⟨0, "x"⟩], some ""⟩⟩ ∧
    (getTranscript envEmptyError "v").result = some [⟨0, "x"⟩] ∧
    (getTranscript envEmptyError "v").cacheWrites = [([⟨0, "x"⟩], none)] := by
  refine ⟨rfl, ?_, ?_⟩ <;> decide

/-- C4 — amended: on a cache miss, every remote outcome that is a
non-success status other than 404, an ok response with a missing or
non-JSON content type, an ok JSON response that fails to parse, an ok JSON
body with a non-empty error field, or a network-level exception, makes
getTranscript return the null failure marker and issue no cache write. -/
theorem c4_failure_no_write (env : Env) (vid : String)
    (hkey : jsFalsyStr env.apiKey = false)
    (hmiss : cacheHit env = none)
    (hcase :
      env.fetchOutcome = .networkError ∨
      ∃ r, env.fetchOutcome = .response r ∧
        ((respOk r.status = false ∧ r.status ≠ 404) ∨
         (respOk r.status = true ∧ r.contentType = none) ∨
         (respOk r.status = true ∧ ∃ ct, r.contentType = some ct ∧
            strIncludes ct "application/json" = false) ∨
         (respOk r.status = true ∧ (∃ ct, r.contentType = some ct ∧
            strIncludes ct "application/json" = true) ∧ r.json = none) ∨
         (respOk r.status = true ∧ (∃ ct, r.contentType = some ct ∧
            strIncludes ct "application/json" = true) ∧
          ∃ data, r.json = some data ∧ jsTruthyStr data.error = true))) :
    (getTranscript env vid).result = none ∧
    (getTranscript env vid).cacheWrites = [] := by
  rcases hcase with hnet | ⟨r, hresp, hcase⟩
  · simp [getTranscript, hkey, hmiss, hnet, fetchPhase]
  · rcases hcase with ⟨hnok, h404⟩ | ⟨hok, hct⟩ | ⟨hok, ct, hct, hinc⟩ |
      ⟨hok, ⟨ct, hct, hinc⟩, hjson⟩ | ⟨hok, ⟨ct, hct, hinc⟩, data, hjson, herr⟩ <;>
      simp [getTranscript, hkey, hmiss, hresp, fetchPhase, *]

/-- C4 — witness: an ok response with content type text/html. -/
theorem c4_failure_no_write_witness :
    (getTranscript envHtml "badjson").result = none ∧
    (getTranscript envHtml "badjson").cacheWrites = [] :=
  c4_failure_no_write envHtml "badjson" rfl rfl
    (Or.inr ⟨⟨200, some "text/html", some ⟨some [⟨0, "x"⟩], none⟩⟩, rfl,
      Or.inr (Or.inr (Or.inl ⟨rfl, "text/html", rfl, by decide⟩))⟩)

/-- C5 — on a cache miss with the kv binding available, an ok JSON
response with no truthy error and a non-empty transcript field makes
getTranscript return that list unchanged and issue exactly one kv.put of
the same list with no expirationTtl. -/
theorem c5_nonempty_transcript_cached (env : Env) (vid : String) (r : HttpResponse)
    (ct : String) (data : SupadataTranscriptResponse) (t : List TranscriptEntry)
    (hkey : jsFalsyStr env.apiKey = false)
    (hkv : env.kvAvailable = true)
    (hmiss : cacheHit env = none)
    (hresp : env.fetchOutcome = .response r)
    (hok : respOk r.status = true)
    (hct : r.contentType = some ct)
    (hinc : strIncludes ct "application/json" = true)
    (hjson : r.json = some data)
    (herr : jsTruthyStr data.error = false)
    (ht : data.transcript = some t)
    (hne : t ≠ []) :
    (getTranscript env vid).result = some t ∧
    (getTranscript env vid).cacheWrites = [(t, none)] := by
  have hemp : t.isEmpty = false := by
    cases t with
    | nil => exact absurd rfl hne
    | cons a as => rfl
  simp [getTranscript, hkey, hmiss, hresp, fetchPhase, hok, hct, hinc, hjson, herr, ht,
    hemp, hkv]

/-- C5 — witness: the one-entry transcript scenario. -/
theorem c5_nonempty_transcript_cached_witness :
    (getTranscript envGood "abc123").result = some [⟨61000, "Hello"⟩] ∧
    (getTranscript envGood "abc123").cacheWrites = [([⟨61000, "Hello"⟩], none)] :=
  c5_nonempty_transcript_cached envGood "abc123"
    ⟨200, some "application/json; charset=utf-8", some ⟨some [⟨61000, "Hello"⟩], none⟩⟩
    "application/json; charset=utf-8" ⟨some [⟨61000, "Hello"⟩], none⟩ [⟨61000, "Hello"⟩]
    rfl rfl rfl rfl rfl rfl (by decide) rfl rfl rfl (by decide)

/-- C6 — a fetched non-empty transcript is returned even when the cache
write throws (the environment below has putThrows set), and more generally
the putThrows field never changes the returned result in any branch. -/
theorem c6_put_throw_keeps_result (env : Env) (vid : String) (r : HttpResponse)
    (ct : String) (data : SupadataTranscriptResponse) (t : List TranscriptEntry)
    (hput : env.putThrows = true)
    (hkey : jsFalsyStr env.apiKey = false)
    (hmiss : cacheHit env = none)
    (hresp : env.fetchOutcome = .response r)
    (hok : respOk r.status = true)
    (hct : r.contentType = some ct)
    (hinc : strIncludes ct "application/json" = true)
    (hjson : r.json = some data)
    (herr : jsTruthyStr data.error = false)
    (ht : data.transcript = some t)
    (hne : t ≠ []) :
    (getTranscript env vid).result = some t ∧
    ∀ (e : Env) (vid2 : String) (b : Bool),
      getTranscript (setPutThrows e b) vid2 = getTranscript e vid2 := by
  have hemp : t.isEmpty = false := by
    cases t with
    | nil => exact absurd rfl hne
    | cons a as => rfl
  constructor
  · simp [getTranscript, hkey, hmiss, hresp, fetchPhase, hok, hct, hinc, hjson, herr, ht,
      hemp]
  · intro e vid2 b
    cases e
    rfl

/-- C6 — witness: the envGood environment has a throwing kv.put. -/
theorem c6_put_throw_keeps_result_witness :
    envGood.putThrows = true ∧
    (getTranscript envGood "abc123").result = some [⟨61000, "Hello"⟩] :=
  ⟨rfl,
    (c6_put_throw_keeps_result envGood "abc123"
      ⟨200, some "application/json; charset=utf-8", some ⟨some [⟨61000, "Hello"⟩], none⟩⟩
      "application/json; charset=utf-8" ⟨some [⟨61000, "Hello"⟩], none⟩ [⟨61000, "Hello"⟩]
      rfl rfl rfl rfl rfl rfl (by decide) rfl rfl rfl (by decide)).1⟩

/-- C7 — whenever the invocation performed a cache read that reported
absence or threw, exactly one outbound HTTP call is attempted; and an
environment whose read throws behaves exactly like one whose read reports
absence, so a read error never by itself causes a failure return. -/
theorem c7_miss_or_throw_fetches_once (env : Env) (vid : String) :
    ((getTranscript env vid).cacheRead = some .absent ∨
       (getTranscript env vid).cacheRead = some .throws →
      (getTranscript env vid).httpCalls = 1) ∧
    getTranscript (setCacheRead env .throws) vid =
      ⟨(getTranscript (setCacheRead env .absent) vid).result,
       (getTranscript (setCacheRead env .absent) vid).httpCalls,
       (getTranscript (setCacheRead env .absent) vid).cacheWrites,
       (getTranscript (setCacheRead env .throws) vid).cacheRead⟩ := by
  obtain ⟨kv, cr, pt, key, fo⟩ := env
  constructor
  · intro h
    cases hkey : jsFalsyStr key with
    | true => simp [getTranscript, hkey] at h
    | false =>
      cases kv with
      | false => simp [getTranscript, cacheHit, hkey] at h
      | true => cases cr <;> simp_all [getTranscript, cacheHit, hkey]
  · cases hkey : jsFalsyStr key <;> cases kv <;>
      simp [getTranscript, setCacheRead, cacheHit, hkey]

/-- C7 — witness: a concrete miss leads to one fetch attempt. -/
theorem c7_miss_or_throw_fetches_once_witness :
    (getTranscript env404 "vid").httpCalls = 1 :=
  (c7_miss_or_throw_fetches_once env404 "vid").1 (Or.inl rfl)

/-- Every kv.put issued by the fetch phase carries exactly the value the
phase returns to the caller. -/
theorem fetchPhase_write_value (kv : Bool) (fo : FetchOutcome) :
    ∀ w ∈ (fetchPhase kv fo).2, (fetchPhase kv fo).1 = some w.1 := by
  intro w hw
  rcases fo with _ | ⟨st, ct, js⟩
  · simp [fetchPhase] at hw
  · cases hok : respOk st with
    | false =>
      by_cases h404 : st = 404
      · simp_all [fetchPhase, emptyWrite]
      · simp [fetchPhase, hok, h404] at hw
    | true =>
      rcases ct with _ | ct
      · simp [fetchPhase, hok] at hw
      · cases hinc : strIncludes ct "application/json" with
        | false => simp [fetchPhase, hok, hinc] at hw
        | true =>
          rcases js with _ | ⟨tr, err⟩
          · simp [fetchPhase, hok, hinc] at hw
          · cases herr : jsTruthyStr err with
            | true => simp [fetchPhase, hok, hinc, herr] at hw
            | false =>
              rcases tr with _ | t
              · simp_all [fetchPhase, emptyWrite]
              · cases hemp : t.isEmpty with
                | true => simp_all [fetchPhase, emptyWrite]
                | false => simp_all [fetchPhase]

/-- C9 — invariant: every kv.put issued by an invocation writes exactly
the value that invocation returns, and an invocation returning the null
failure marker issues no kv.put at all. -/
theorem c9_writes_match_result (env : Env) (vid : String) :
    (∀ w ∈ (getTranscript env vid).cacheWrites,
      (getTranscript env vid).result = some w.1) ∧
    ((getTranscript env vid).result = none →
      (getTranscript env vid).cacheWrites = []) := by
  have h1 : ∀ w ∈ (getTranscript env vid).cacheWrites,
      (getTranscript env vid).result = some w.1 := by
    intro w hw
    cases hkey : jsFalsyStr env.apiKey with
    | true => simp [getTranscript, hkey] at hw
    | false =>
      rcases hhit : cacheHit env with _ | v
      · simp only [getTranscript, hkey, Bool.false_eq_true, if_false, hhit] at hw ⊢
        exact fetchPhase_write_value env.kvAvailable env.fetchOutcome w hw
      · simp [getTranscript, hkey, hhit] at hw
  refine ⟨h1, fun hres => ?_⟩
  rcases hcw : (getTranscript env vid).cacheWrites with _ | ⟨w, ws⟩
  · rfl
  · have h2 := h1 w (by rw [hcw]; exact List.mem_cons_self w ws)
    rw [hres] at h2
    cases h2

/-- C9 — witness: the 404 scenario issues exactly the write it returns. -/
theorem c9_writes_match_result_witness :
    (getTranscript env404 "missing1").result = some [] :=
  (c9_writes_match_result env404 "missing1").1 ([], some 3600) (by decide)

/-- C8 — the watch page dispatches exhaustively: a missing or non-string
v parameter renders the missing-id page with zero resolver calls; for a
non-empty string identifier, a null resolver result renders the error page
naming the identifier, an empty list the no-transcript page naming the
identifier, and a non-empty list the transcript page naming the identifier
with one (formatOffset offset, text) row per entry in order. -/
theorem c8_watch_page_dispatch (env : Env) (s : String) :
    WatchPage .missing env = (.missingId, 0) ∧
    (∀ l, WatchPage (.strList l) env = (.missingId, 0)) ∧
    (s.isEmpty = false → (getTranscript env s).result = none →
      WatchPage (.str s) env = (.fetchError s, 1)) ∧
    (s.isEmpty = false → (getTranscript env s).result = some [] →
      WatchPage (.str s) env = (.noTranscript s, 1)) ∧
    (∀ ts, s.isEmpty = false → ts ≠ [] → (getTranscript env s).result = some ts →
      WatchPage (.str s) env =
        (.transcript s (ts.map fun e => (formatOffset e.offset, e.text)), 1)) := by
  refine ⟨rfl, fun l => rfl, ?_, ?_, ?_⟩
  · intro hs h
    simp [WatchPage, hs, h]
  · intro hs h
    simp [WatchPage, hs, h]
  · intro ts hs hne h
    cases ts with
    | nil => exact absurd rfl hne
    | cons a as => simp [WatchPage, hs, h]

/-- C8 — witness: the one-entry transcript at offset 61000 ms renders as
the row ("01:01", "Hello") on the transcript page. -/
theorem c8_watch_page_dispatch_witness :
    WatchPage (.str "abc123") envGood =
      (.transcript "abc123" [("01:01", "Hello")], 1) := by
  have h := (c8_watch_page_dispatch envGood "abc123").2.2.2.2 [⟨61000, "Hello"⟩]
    rfl (by decide) (by decide)
  simpa [formatOffset, pad2] using h

/-- C10 — an ok response with no content-type header at all yields the
null failure marker and no cache write even when the body is valid JSON;
the body is parsed only when the header value contains the substring
"application/json", and the parameterized value
"application/json; charset=utf-8" does contain it, so such a response with
a clean non-empty transcript is accepted and returned. -/
theorem c10_content_type_gate (env : Env) (vid : String) (r : HttpResponse)
    (hkey : jsFalsyStr env.apiKey = false)
    (hmiss : cacheHit env = none)
    (hresp : env.fetchOutcome = .response r)
    (hok : respOk r.status = true) :
    (r.contentType = none →
      (getTranscript env vid).result = none ∧
      (getTranscript env vid).cacheWrites = []) ∧
    (∀ ct, r.contentType = some ct → strIncludes ct "application/json" = false →
      (getTranscript env vid).result = none ∧
      (getTranscript env vid).cacheWrites = []) ∧
    strIncludes "application/json; charset=utf-8" "application/json" = true ∧
    (∀ data t, r.contentType = some "application/json; charset=utf-8" →
      r.json = some data → jsTruthyStr data.error = false →
      data.transcript = some t → t ≠ [] →
      (getTranscript env vid).result = some t) := by
  have hjsonct : strIncludes "application/json; charset=utf-8" "application/json" = true := by
    decide
  refine ⟨?_, ?_, hjsonct, ?_⟩
  · intro hct
    simp [getTranscript, hkey, hmiss, hresp, fetchPhase, hok, hct]
  · intro ct hct hinc
    simp [getTranscript, hkey, hmiss, hresp, fetchPhase, hok, hct, hinc]
  · intro data t hct hjson herr ht hne
    have hemp : t.isEmpty = false := by
      cases t with
      | nil => exact absurd rfl hne
      | cons a as => rfl
    simp [getTranscript, hkey, hmiss, hresp, fetchPhase, hok, hct, hjsonct, hjson, herr,
      ht, hemp]

/-- C10 — witness: an ok JSON body behind a missing content-type header is
rejected with no cache write. -/
theorem c10_content_type_gate_witness :
    (getTranscript envNoCt "vid").result = none ∧
    (getTranscript envNoCt "vid").cacheWrites = [] :=
  (c10_content_type_gate envNoCt "vid" ⟨200, none, some ⟨some [⟨0, "x"⟩], none⟩⟩
    rfl rfl rfl (by decide)).1 rfl

end Crux
